import Mathlib

/-
Verification of the `wren_wrapper` task-manager wrapper
(src/utilities/wren_wrapper/wren_wrapper.py).

The wrapper is embedded shallowly: every interaction with the outside
world (stdin lines, the backend `wren` process, the `zenity` date picker,
the configuration file, the notes directory) is an explicit parameter,
and each handler is a pure function from those parameters to an outcome
plus the updated directory contents.  Filenames carry their content so
that silent overwrites are observable.
-/

namespace WrenWrapper

/-- Python `str.isspace` characters relevant to `str.strip()` and `\s`
(ASCII range: space, tab, newline, carriage return, vertical tab, form feed). -/
def pyIsSpace (c : Char) : Bool :=
  c = ' ' || c = '\t' || c = '\n' || c = '\r' || c = '\x0b' || c = '\x0c'

/-- `str.strip()` on a list of characters: drop leading and trailing whitespace. -/
def pyStripL (l : List Char) : List Char :=
  ((l.dropWhile pyIsSpace).reverse.dropWhile pyIsSpace).reverse

/-- `str.strip()`. -/
def pyStrip (s : String) : String :=
  String.mk (pyStripL s.data)

/-- `str.lower()` (ASCII). -/
def pyLower (s : String) : String :=
  String.mk (s.data.map Char.toLower)

/-- Whether `pre` is a prefix of `l`; models `str.startswith`. -/
def hasPrefixL : List Char → List Char → Bool
  | [], _ => true
  | _ :: _, [] => false
  | p :: ps, c :: cs => p == c && hasPrefixL ps cs

/-- Split a character list on a separator character, keeping empty segments,
like Python `str.split(sep)` with a one-character separator. -/
def splitCh (sep : Char) : List Char → List (List Char)
  | [] => [[]]
  | c :: rest =>
    let r := splitCh sep rest
    if c = sep then [] :: r
    else
      match r with
      | h :: t => (c :: h) :: t
      | [] => [[c]]

/-- Number of maximal runs of non-whitespace characters (the Boolean flag
records whether the previous character was inside such a run). -/
def fieldCountAux : List Char → Bool → Nat
  | [], _ => 0
  | c :: rest, inWord =>
    if pyIsSpace c then fieldCountAux rest false
    else (if inWord then 0 else 1) + fieldCountAux rest true

/-- `cron_regex.match(schedule.strip())` where
`cron_regex = ^(\S+\s+){4}\S+$` (wren_wrapper.py line 163): after stripping,
the regex matches exactly the strings made of five whitespace-separated runs
of non-whitespace characters. -/
def cronOk (schedule : String) : Bool :=
  fieldCountAux (pyStripL schedule.data) false == 5

/-- A nonempty all-digit character list. -/
def isDigitsL (l : List Char) : Bool :=
  !l.isEmpty && l.all Char.isDigit

/-- Value of an (all-digit) character list read in base 10. -/
def natOfDigits (l : List Char) : Nat :=
  l.foldl (fun a c => a * 10 + (c.toNat - 48)) 0

/-- Python `int(s)`: optional surrounding whitespace, optional sign, a
nonempty digit string.  (Digit-group underscores and non-ASCII digits are
not modelled.) -/
def pyIntL (l0 : List Char) : Option Int :=
  let l := pyStripL l0
  match l with
  | '+' :: rest => if isDigitsL rest then some ((natOfDigits rest : Nat) : Int) else none
  | '-' :: rest => if isDigitsL rest then some (-((natOfDigits rest : Nat) : Int)) else none
  | _ => if isDigitsL l then some ((natOfDigits l : Nat) : Int) else none

/-- Directory contents: (filename, file content) pairs.  Task marker files
are created empty, so an overwrite replaces the stored content. -/
abbrev Files := List (String × String)

/-- Whether a file of that name is present. -/
def Files.hasFile (fs : Files) (name : String) : Bool :=
  fs.any (fun e => e.1 == name)

/-- The content of the named file, when present. -/
def Files.content (fs : Files) (name : String) : Option String :=
  (fs.find? (fun e => e.1 == name)).map (fun e => e.2)

/-- Write a file: replace the content if the name is present, else add it. -/
def Files.put (fs : Files) (name content : String) : Files :=
  match fs with
  | [] => [(name, content)]
  | e :: rest =>
    if e.1 == name then (name, content) :: rest
    else e :: Files.put rest name content

/-- Delete the named file. -/
def Files.remove (fs : Files) (name : String) : Files :=
  fs.filter (fun e => !(e.1 == name))

/-! ### handle_cron (wren_wrapper.py lines 150-193) -/

inductive CronOutcome
  | aborted
  | created (filename : String)
  | fileExists (filename : String)
deriving DecidableEq

/-- Exit code passed to `sys.exit` on each path of `handle_cron`. -/
def CronOutcome.exitCode : CronOutcome → Nat
  | .created _ => 0
  | .fileExists _ => 1
  | .aborted => 1

/-- `handle_cron`: read stdin lines until one matches the cron regex
(EOF / interrupt aborts), then exclusively create the empty marker file
`"<stripped schedule> <title>"` in the notes directory (`open(filepath, "x")`
fails with `FileExistsError` when the name is taken). -/
def handle_cron (fs : Files) (stdin : List String) (title : String) :
    CronOutcome × Files :=
  match stdin with
  | [] => (.aborted, fs)
  | line :: rest =>
    if cronOk line then
      let filename := pyStrip line ++ " " ++ title
      if Files.hasFile fs filename then (.fileExists filename, fs)
      else (.created filename, Files.put fs filename "")
    else handle_cron fs rest title

/-- The first stdin line accepted by the cron schedule loop, stripped. -/
def firstValidCron : List String → Option String
  | [] => none
  | line :: rest => if cronOk line then some (pyStrip line) else firstValidCron rest

/-! ### handle_future (wren_wrapper.py lines 196-258) -/

def isLeapYear (y : Nat) : Bool :=
  (y % 4 == 0 && y % 100 != 0) || y % 400 == 0

def daysInMonth (y m : Nat) : Nat :=
  if m == 2 then (if isLeapYear y then 29 else 28)
  else if m == 4 || m == 6 || m == 9 || m == 11 then 30
  else 31

/-- `datetime.datetime.strptime(s, "%Y-%m-%d")` succeeding.  CPython compiles
the format to the regex `(?P<Y>\d\d\d\d)\-(?P<m>1[0-2]|0[1-9]|[1-9])\-`
`(?P<d>3[01]|[12]\d|0[1-9]|[1-9])`, anchored with no unconverted data, and then
builds a `datetime` object, which additionally requires `1 <= year` and the day
to exist in that month.  Since `\d` never matches the literal `-` separators,
matching is equivalent to: exactly three `-`-separated all-digit groups, the
year of exactly four digits, month and day of one or two digits, month in 1..12
and day in 1..31 and valid for the month. -/
def strptimeYMD (s : String) : Option (Nat × Nat × Nat) :=
  match splitCh '-' s.data with
  | [ys, ms, ds] =>
    if isDigitsL ys && isDigitsL ms && isDigitsL ds then
      let y := natOfDigits ys
      let m := natOfDigits ms
      let d := natOfDigits ds
      if ys.length == 4 && ms.length ≤ 2 && ds.length ≤ 2
          && 1 ≤ m && m ≤ 12 && 1 ≤ d && d ≤ 31
          && 1 ≤ y && d ≤ daysInMonth y m
      then some (y, m, d) else none
    else none
  | _ => none

/-- Outcome of the `zenity --calendar` subprocess, as seen by the wrapper:
either the spawn raised (`FileNotFoundError` / `CalledProcessError`), or the
process ran and returned an exit code and captured stdout. -/
inductive PickerOutcome
  | launchFailure
  | exited (returncode : Nat) (stdout : String)
deriving DecidableEq

/-- Environment probed by `handle_future`: `shutil.which("zenity")`,
`os.environ.get("DISPLAY")` (truthy, i.e. set and nonempty), and what the
picker process does when it is actually spawned. -/
structure FutureEnv where
  zenityOnPath : Bool
  displaySet : Bool
  picker : PickerOutcome
deriving DecidableEq

inductive FutureOutcome
  | cancelled
  | noDate
  | aborted
  | created (filename : String)
  | fileExists (filename : String)
deriving DecidableEq

/-- Exit code passed to `sys.exit` on each path of `handle_future`. -/
def FutureOutcome.exitCode : FutureOutcome → Nat
  | .created _ => 0
  | _ => 1

/-- The shared tail of `handle_future` (lines 244-258): exclusive creation of
the empty marker file `"<date> <title>"`. -/
def futureCreate (fs : Files) (dateStr title : String) : FutureOutcome × Files :=
  let filename := dateStr ++ " " ++ title
  if Files.hasFile fs filename then (.fileExists filename, fs)
  else (.created filename, Files.put fs filename "")

/-- The CLI date prompt loop (lines 228-238): read stdin lines until one is
accepted by `strptime(.., "%Y-%m-%d")`; EOF / interrupt aborts.  An accepted
`date_input` is used verbatim as `date_str` (it is necessarily nonempty, so
the `if not date_str` check on line 240 never fires on this route). -/
def futureCLILoop (fs : Files) (stdin : List String) (title : String) :
    FutureOutcome × Files :=
  match stdin with
  | [] => (.aborted, fs)
  | line :: rest =>
    if (strptimeYMD line).isSome then futureCreate fs line title
    else futureCLILoop fs rest title

/-- `handle_future`: when both `zenity` and a display are available, run the
picker; exit code 0 yields `stdout.strip()` as the date (empty means "could
not determine date", exit 1), a nonzero exit code is user cancellation
(exit 1, no fallback), and a spawn failure falls back to the CLI prompt.
Without zenity or a display the CLI prompt is used directly. -/
def handle_future (fs : Files) (env : FutureEnv) (stdin : List String)
    (title : String) : FutureOutcome × Files :=
  if env.zenityOnPath && env.displaySet then
    match env.picker with
    | .exited 0 out =>
      let d := pyStrip out
      if d = "" then (.noDate, fs) else futureCreate fs d title
    | .exited _ _ => (.cancelled, fs)
    | .launchFailure => futureCLILoop fs stdin title
  else futureCLILoop fs stdin title

/-! ### handle_exact_done (wren_wrapper.py lines 261-291) -/

/-- The notes directory together with its `done` subdirectory
(`none` while the subdirectory does not exist). -/
structure NotesState where
  notes : Files
  doneDir : Option Files
deriving DecidableEq

inductive ExactOutcome
  | notFound
  | moved (title : String)
deriving DecidableEq

/-- Exit code passed to `sys.exit` on each path of `handle_exact_done`. -/
def ExactOutcome.exitCode : ExactOutcome → Nat
  | .moved _ => 0
  | .notFound => 1

/-- `handle_exact_done`: if no file named exactly `title` is in the notes
directory, report and exit 1; otherwise ensure the `done` subdirectory exists
(`mkdir(parents=True, exist_ok=True)`) and `shutil.move` the file into it.
`shutil.move` with a file destination delegates to `os.rename`, which on POSIX
silently replaces an existing destination file — hence `Files.put`, not an
exclusive create. -/
def handle_exact_done (st : NotesState) (title : String) :
    ExactOutcome × NotesState :=
  if Files.hasFile st.notes title then
    let c := (Files.content st.notes title).getD ""
    let doneFiles := st.doneDir.getD []
    (.moved title, ⟨Files.remove st.notes title, some (Files.put doneFiles title c)⟩)
  else (.notFound, st)

/-! ### handle_interactive_done (wren_wrapper.py lines 96-147) -/

/-- Candidate parsing (lines 103-111): when the captured stdout is nonempty,
strip it, split on newlines, strip each line, keep the nonempty lines that do
not start with `"Error -"`, and drop a leading `"- "` list marker. -/
def parseCandidates (stdout : String) : List String :=
  if stdout.data.isEmpty then []
  else
    let lines := (splitCh '\n' (pyStripL stdout.data)).map pyStripL
    let keep := lines.filter (fun l => !l.isEmpty && !hasPrefixL ("Error -".data) l)
    (keep.map (fun l => if hasPrefixL ("- ".data) l then l.drop 2 else l)).map String.mk

/-- `final_args[final_args.index(pattern)] = chosen`: replace the first
occurrence of `pat` (the call site guards that `pat` is present). -/
def replaceFirst : List String → String → String → List String
  | [], _, _ => []
  | x :: xs, pat, rep =>
    if x == pat then rep :: xs else x :: replaceFirst xs pat rep

/-- Environment of `handle_interactive_done`: captured stdout of the listing
query `wren -d <pattern>`, the exit code the backend returns for a
(non-capturing) invocation with given arguments, and the quiet flag read by
`print_quiet`. -/
structure DoneEnv where
  listStdout : String
  runExit : List String → Int
  quiet : Bool

inductive DoneOutcome
  | aborted
  | ran (args : List String) (code : Int)
deriving DecidableEq

/-- Exit code passed to `sys.exit` by `handle_interactive_done`: the
backend's own code when it was invoked, otherwise 1. -/
def DoneOutcome.exitCode : DoneOutcome → Int
  | .aborted => 1
  | .ran _ c => c

/-- `print_quiet`: one stdout line unless quiet mode is on. -/
def pq (quiet : Bool) (msg : String) : List String :=
  if quiet then [] else [msg]

/-- The selection loop (lines 118-141).  Each stdin line is checked in the
order of the source: the quit sentinel (case-insensitive `q`), then `int()`
(a `ValueError` is caught as "Invalid input"), then the 1-based range check ("Invalid
selection." when out of range), then `final_args.index(pattern)` (a missing
pattern raises `ValueError`, caught by the same "Invalid input" handler).
EOF / interrupt aborts with exit 1 and no backend call. -/
def selectionLoop (env : DoneEnv) (cands : List String) (pattern : String)
    (remaining : List String) : List String → List String × DoneOutcome
  | [] => ([], .aborted)
  | inp :: rest =>
    if pyLower inp == "q" then (pq env.quiet "Aborted.", .aborted)
    else
      match pyIntL inp.data with
      | some c =>
        if 1 ≤ c ∧ c ≤ (cands.length : Int) then
          if remaining.contains pattern then
            let chosen := cands.getD (c.toNat - 1) ""
            let finalArgs := replaceFirst remaining pattern chosen
            ([], .ran finalArgs (env.runExit finalArgs))
          else
            let r := selectionLoop env cands pattern remaining rest
            (pq env.quiet "Invalid input. Please enter a number from the list." ++ r.1, r.2)
        else
          let r := selectionLoop env cands pattern remaining rest
          (pq env.quiet "Invalid selection." ++ r.1, r.2)
      | none =>
        let r := selectionLoop env cands pattern remaining rest
        (pq env.quiet "Invalid input. Please enter a number from the list." ++ r.1, r.2)

/-- Observable behaviour of `handle_interactive_done`: the `print_quiet`
output, the argument lists of the non-capturing backend invocations (the
listing query itself is always issued exactly once before this), and the
terminal outcome. -/
structure DoneRun where
  output : List String
  runs : List (List String)
  outcome : DoneOutcome
deriving DecidableEq

/-- Backend invocations implied by the loop outcome. -/
def DoneOutcome.runsOf : DoneOutcome → List (List String)
  | .aborted => []
  | .ran args _ => [args]

/-- `handle_interactive_done`: parse the candidates from the listing query's
stdout; with two or more candidates print the menu and run the selection
loop, otherwise re-issue the original arguments unmodified and propagate the
backend's exit code. -/
def handle_interactive_done (env : DoneEnv) (pattern : String)
    (remaining stdin : List String) : DoneRun :=
  let cands := parseCandidates env.listStdout
  if 1 < cands.length then
    let header := pq env.quiet
      ("Multiple tasks match \"" ++ pattern ++ "\". Mark which one as done?")
    let menu := if env.quiet then []
      else (List.range cands.length).map
        (fun i => toString (i + 1) ++ ") " ++ cands.getD i "")
    let r := selectionLoop env cands pattern remaining stdin
    ⟨header ++ menu ++ r.1, r.2.runsOf, r.2⟩
  else ⟨[], [remaining], .ran remaining (env.runExit remaining)⟩

/-! ### get_notes_dir (wren_wrapper.py lines 50-82) -/

/-- JSON documents, as produced by `json.load`. -/
inductive Json
  | str (s : String)
  | num (n : Int)
  | bool (b : Bool)
  | null
  | arr (elems : List Json)
  | obj (fields : List (String × Json))

/-- Python dict lookup after `json.load` (a duplicated key keeps its last
occurrence). -/
def lookupField (fields : List (String × Json)) (key : String) : Option Json :=
  match fields with
  | [] => none
  | (k, v) :: rest =>
    match lookupField rest key with
    | some r => some r
    | none => if k == key then some v else none

def Json.isStr : Json → Bool
  | .str _ => true
  | _ => false

def Json.isObj : Json → Bool
  | .obj _ => true
  | _ => false

/-- State of the configuration file `~/.config/wren/wren.json`. -/
inductive ConfigState
  | missing
  | unparseable
  | parsed (doc : Json)

/-- Result of the config resolver.  `exit2` is the handled error path
(`sys.exit(2)`); `uncaught` is an exception the `except (JSONDecodeError,
KeyError)` clause does not catch (a `TypeError` from subscripting a non-dict
or from `pathlib.Path` on a non-string), which aborts the interpreter with a
traceback and exit code 1. -/
inductive ResolveResult
  | exit2
  | uncaught
  | ok (dir : String)
deriving DecidableEq

/-- Exit code of the process when the resolver does not return. -/
def ResolveResult.exitCode : ResolveResult → Option Nat
  | .exit2 => some 2
  | .uncaught => some 1
  | .ok _ => none

/-- `pathlib.Path(s).expanduser()` for the leading-tilde forms. -/
def pyExpanduser (home p : String) : String :=
  if p == "~" then home
  else if hasPrefixL ("~/".data) p.data then home ++ String.mk (p.data.drop 1)
  else p

structure ResolverEnv where
  config : ConfigState
  home : String
  existingDirs : List String

/-- `get_notes_dir`: missing file, a JSON syntax error, or a JSON object
without the `notes_dir` key are caught and exit 2; a non-object document or a
non-string `notes_dir` value raises an uncaught `TypeError`.  On success the
value is tilde-expanded and the directory is created when absent (the second
component lists the directories created; the `OSError` branch of `mkdir` is
not modelled — creation succeeds). -/
def get_notes_dir (env : ResolverEnv) : ResolveResult × List String :=
  match env.config with
  | .missing => (.exit2, [])
  | .unparseable => (.exit2, [])
  | .parsed doc =>
    match doc with
    | .obj fields =>
      match lookupField fields "notes_dir" with
      | none => (.exit2, [])
      | some (.str s) =>
        let dir := pyExpanduser env.home s
        if env.existingDirs.contains dir then (.ok dir, [])
        else (.ok dir, [dir])
      | some _ => (.uncaught, [])
    | _ => (.uncaught, [])

/-! ### main (wren_wrapper.py lines 294-406) -/

/-- The result of `parser.parse_known_args(argv)` (with
`argument_default=argparse.SUPPRESS`, an absent flag leaves the attribute
unset, hence the `Option` fields; `exactDone` is `args.exact` in the
source).  `remaining` is the residual argument list destined for wren. -/
structure ParsedArgs where
  cron : Option String
  future : Option String
  exactDone : Option String
  help : Bool
  verbose : Bool
  quiet : Bool
  remaining : List String

/-- `sum(1 for cmd in ["cron", "future", "exact"] if cmd in args)`. -/
def commandCount (pa : ParsedArgs) : Nat :=
  (if pa.cron.isSome then 1 else 0) + (if pa.future.isSome then 1 else 0) +
    (if pa.exactDone.isSome then 1 else 0)

/-- The `-d` / `--done` pattern detection of lines 378-396: the token right
after the first recognized done flag, provided it exists, does not start with
`-`, and is nonempty (an empty token makes `done_pattern` falsy, so the
`if is_done_command and done_pattern` guard falls through to plain proxying). -/
def findDonePattern (remaining : List String) : Option String :=
  if remaining.contains "-d" || remaining.contains "--done" then
    let dIndex := if remaining.contains "-d" then remaining.indexOf "-d"
      else remaining.indexOf "--done"
    match remaining.get? (dIndex + 1) with
    | some nxt =>
      if hasPrefixL ("-".data) nxt.data || nxt == "" then none else some nxt
    | none => none
  else none

/-- Whether the cron outcome wrote to the notes directory. -/
def CronOutcome.wrote : CronOutcome → Bool
  | .created _ => true
  | _ => false

/-- Whether the future outcome wrote to the notes directory. -/
def FutureOutcome.wrote : FutureOutcome → Bool
  | .created _ => true
  | _ => false

/-- Whether the exact-done outcome changed the filesystem. -/
def ExactOutcome.wrote : ExactOutcome → Bool
  | .moved _ => true
  | .notFound => false

/-- Everything outside the process that `main` can touch. -/
structure MainEnv where
  wrenFound : Bool
  resolver : ResolverEnv
  notesFiles : Files
  doneDir : Option Files
  futureEnv : FutureEnv
  stdin : List String
  listStdout : String
  runExit : List String → Int

/-- Observables of one `main` run: the process exit code, how many times the
backend was invoked (listing query and `--help` included), whether the
configuration was read, and whether anything in the filesystem was created,
moved or overwritten. -/
structure MainTrace where
  exit : Int
  backendCalls : Nat
  configRead : Bool
  fsWrites : Bool
deriving DecidableEq

/-- `main`: argparse first (the mutually exclusive verbosity group makes
`-v` together with `-q` a parser usage error, `sys.exit(2)`, before anything
else runs); then the backend is located (exit 2 when absent); then `--help`
(runs `wren --help`, exits 0); then the wrapper-command conflict check
(exit 1, before the config is read and before any backend invocation); then
`get_notes_dir`; then dispatch to one handler or to plain proxying. -/
def mainRun (pa : ParsedArgs) (env : MainEnv) : MainTrace :=
  if pa.verbose && pa.quiet then ⟨2, 0, false, false⟩
  else if !env.wrenFound then ⟨2, 0, false, false⟩
  else if pa.help then ⟨0, 1, false, false⟩
  else if 1 < commandCount pa then ⟨1, 0, false, false⟩
  else
    match get_notes_dir env.resolver with
    | (.exit2, _) => ⟨2, 0, true, false⟩
    | (.uncaught, _) => ⟨1, 0, true, false⟩
    | (.ok _, createdDirs) =>
      let dirMade := !createdDirs.isEmpty
      match pa.cron with
      | some title =>
        let r := handle_cron env.notesFiles env.stdin title
        ⟨(r.1.exitCode : Nat), 0, true, dirMade || r.1.wrote⟩
      | none =>
        match pa.future with
        | some title =>
          let r := handle_future env.notesFiles env.futureEnv env.stdin title
          ⟨(r.1.exitCode : Nat), 0, true, dirMade || r.1.wrote⟩
        | none =>
          match pa.exactDone with
          | some title =>
            let r := handle_exact_done ⟨env.notesFiles, env.doneDir⟩ title
            ⟨(r.1.exitCode : Nat), 0, true, dirMade || r.1.wrote⟩
          | none =>
            match findDonePattern pa.remaining with
            | some pat =>
              let r := handle_interactive_done
                ⟨env.listStdout, env.runExit, pa.quiet⟩ pat pa.remaining env.stdin
              ⟨r.outcome.exitCode, 1 + r.runs.length, true, dirMade⟩
            | none => ⟨env.runExit pa.remaining, 1, true, dirMade⟩

/-! ### Definitions taken from the specification's words (for refinement
comparisons only; everything above is translated from the source) -/

/-- Modelled from the spec: "a text prompt requiring strict `YYYY-MM-DD`
format" — four digits, a dash, two digits, a dash, two digits. -/
def isStrictYMD (s : String) : Bool :=
  match s.data with
  | [y1, y2, y3, y4, s1, m1, m2, s2, d1, d2] =>
    y1.isDigit && y2.isDigit && y3.isDigit && y4.isDigit && s1 = '-' &&
      m1.isDigit && m2.isDigit && s2 = '-' && d1.isDigit && d2.isDigit
  | _ => false

end WrenWrapper

namespace WrenWrapper

theorem hasFile_eq_isSome_content (fs : Files) (n : String) :
    Files.hasFile fs n = (Files.content fs n).isSome := by
  induction fs with
  | nil => rfl
  | cons e fs ih =>
    by_cases h : e.1 == n
    · simp [Files.hasFile, Files.content, List.find?_cons_of_pos, h]
    · simp only [Files.hasFile, Files.content, List.any_cons] at *
      rw [List.find?_cons_of_neg _ (by simp [h])]
      simp [h, ih]

theorem content_put_self (fs : Files) (n c : String) :
    Files.content (Files.put fs n c) n = some c := by
  induction fs with
  | nil => simp [Files.put, Files.content, List.find?_cons_of_pos]
  | cons e fs ih =>
    by_cases h : e.1 == n
    · simp [Files.put, Files.content, h, List.find?_cons_of_pos]
    · rw [Files.put, if_neg (by simp [h])]
      rw [Files.content, List.find?_cons_of_neg _ (by simp [h])]
      exact ih

theorem content_put_other (fs : Files) (n m c : String) (hne : m ≠ n) :
    Files.content (Files.put fs m c) n = Files.content fs n := by
  induction fs with
  | nil =>
    rw [Files.put, Files.content, List.find?_cons_of_neg _ (by simp [hne])]
    rfl
  | cons e fs ih =>
    by_cases h : e.1 == m
    · rw [Files.put, if_pos (by simp [h])]
      rw [Files.content, List.find?_cons_of_neg _ (by simp [hne])]
      rw [Files.content, List.find?_cons_of_neg _ (by simp_all)]
    · rw [Files.put, if_neg (by simp [h])]
      by_cases h2 : e.1 == n
      · rw [Files.content, List.find?_cons_of_pos _ (by simp [h2])]
        rw [Files.content, List.find?_cons_of_pos _ (by simp [h2])]
      · rw [Files.content, List.find?_cons_of_neg _ (by simp [h2])]
        rw [Files.content, List.find?_cons_of_neg _ (by simp [h2])]
        exact ih

theorem hasFile_put_self (fs : Files) (n c : String) :
    Files.hasFile (Files.put fs n c) n = true := by
  rw [hasFile_eq_isSome_content, content_put_self]
  rfl

theorem ne_of_hasFile (fs : Files) (n m : String)
    (hn : Files.hasFile fs n = true) (hm : Files.hasFile fs m = false) : n ≠ m := by
  intro h
  rw [h, hm] at hn
  exact Bool.false_ne_true hn

theorem hasFile_remove_self (fs : Files) (n : String) :
    Files.hasFile (Files.remove fs n) n = false := by
  induction fs with
  | nil => rfl
  | cons e fs ih =>
    by_cases h : (e.1 == n) = true
    · have he : Files.remove (e :: fs) n = Files.remove fs n := by
        simp [Files.remove, List.filter_cons, h]
      rw [he]
      exact ih
    · have he : Files.remove (e :: fs) n = e :: Files.remove fs n := by
        simp [Files.remove, List.filter_cons, h]
      rw [he]
      simp only [Files.hasFile, List.any_cons, h, Bool.false_or]
      simp only [Files.hasFile] at ih
      exact ih


theorem cron_collision_of_firstValid (stdin : List String) :
    ∀ (fs : Files) (title s : String), firstValidCron stdin = some s →
      Files.hasFile fs (s ++ " " ++ title) = true →
      handle_cron fs stdin title = (.fileExists (s ++ " " ++ title), fs) := by
  induction stdin with
  | nil =>
    intro fs title s h
    exact absurd h (by simp [firstValidCron])
  | cons line rest ih =>
    intro fs title s h hmem
    by_cases hc : cronOk line = true
    · rw [firstValidCron, if_pos hc] at h
      injection h with h
      subst h
      simp [handle_cron, hc, hmem]
    · rw [firstValidCron, if_neg hc] at h
      simp only [handle_cron, if_neg hc]
      exact ih fs title s h hmem

theorem handle_cron_preserves (stdin : List String) :
    ∀ (fs : Files) (title fn : String), Files.hasFile fs fn = true →
      Files.content (handle_cron fs stdin title).2 fn = Files.content fs fn := by
  induction stdin with
  | nil => intro fs title fn _; rfl
  | cons line rest ih =>
    intro fs title fn hfn
    by_cases hc : cronOk line = true
    · by_cases hm : Files.hasFile fs (pyStrip line ++ " " ++ title) = true
      · simp [handle_cron, hc, hm]
      · have hne : (pyStrip line ++ " " ++ title) ≠ fn := by
          intro he
          rw [he] at hm
          exact hm hfn
        simp only [handle_cron, hc, ite_true, hm, ite_false]
        exact content_put_other fs fn _ "" hne
    · simp only [handle_cron, if_neg hc]
      exact ih fs title fn hfn

theorem futureCreate_collision (fs : Files) (d title : String)
    (h : Files.hasFile fs (d ++ " " ++ title) = true) :
    futureCreate fs d title = (.fileExists (d ++ " " ++ title), fs) := by
  simp [futureCreate, h]

theorem futureCreate_preserves (fs : Files) (d title fn : String)
    (hfn : Files.hasFile fs fn = true) :
    Files.content (futureCreate fs d title).2 fn = Files.content fs fn := by
  by_cases hm : Files.hasFile fs (d ++ " " ++ title) = true
  · simp [futureCreate, hm]
  · have hne : (d ++ " " ++ title) ≠ fn := by
      intro he
      rw [he] at hm
      exact hm hfn
    simp only [futureCreate, hm, ite_false]
    exact content_put_other fs fn _ "" hne

theorem futureCLILoop_preserves (stdin : List String) :
    ∀ (fs : Files) (title fn : String), Files.hasFile fs fn = true →
      Files.content (futureCLILoop fs stdin title).2 fn = Files.content fs fn := by
  induction stdin with
  | nil => intro fs title fn _; rfl
  | cons line rest ih =>
    intro fs title fn hfn
    by_cases hd : (strptimeYMD line).isSome = true
    · simp only [futureCLILoop, hd, ite_true]
      exact futureCreate_preserves fs line title fn hfn
    · simp only [futureCLILoop, hd, ite_false]
      exact ih fs title fn hfn

theorem handle_future_preserves (fs : Files) (env : FutureEnv) (stdin : List String)
    (title fn : String) (hfn : Files.hasFile fs fn = true) :
    Files.content (handle_future fs env stdin title).2 fn = Files.content fs fn := by
  by_cases hz : (env.zenityOnPath && env.displaySet) = true
  · cases hp : env.picker with
    | launchFailure =>
      simp only [handle_future, hz, ite_true, hp]
      exact futureCLILoop_preserves stdin fs title fn hfn
    | exited c out =>
      cases c with
      | zero =>
        by_cases he : pyStrip out = ""
        · simp [handle_future, hz, hp, he]
        · simp only [handle_future, hz, ite_true, hp, he, ite_false]
          exact futureCreate_preserves fs (pyStrip out) title fn hfn
      | succ k => simp [handle_future, hz, hp]
  · simp only [handle_future, hz, ite_false]
    exact futureCLILoop_preserves stdin fs title fn hfn

/-- Claim C1 (amended).  Recurring-task creation and future-dated-task creation use
exclusive creation: when the target filename already exists in the notes
directory they fail with an already-exists error (exit 1) and leave every
existing file, and in general every file content, untouched.  Exact-done
relocation, however, does NOT fail on a collision: `shutil.move` silently
replaces an existing file of the same name in the `done` subdirectory with
the moved marker file (exit 0). -/
theorem C1_thm :
    (∀ (fs : Files) (stdin : List String) (title s : String),
      firstValidCron stdin = some s →
      Files.hasFile fs (s ++ " " ++ title) = true →
      handle_cron fs stdin title = (.fileExists (s ++ " " ++ title), fs) ∧
        CronOutcome.exitCode (.fileExists (s ++ " " ++ title)) = 1) ∧
    (∀ (fs : Files) (stdin : List String) (title fn : String),
      Files.hasFile fs fn = true →
      Files.content (handle_cron fs stdin title).2 fn = Files.content fs fn) ∧
    (∀ (fs : Files) (d title : String),
      Files.hasFile fs (d ++ " " ++ title) = true →
      futureCreate fs d title = (.fileExists (d ++ " " ++ title), fs) ∧
        FutureOutcome.exitCode (.fileExists (d ++ " " ++ title)) = 1) ∧
    (∀ (fs : Files) (env : FutureEnv) (stdin : List String) (title fn : String),
      Files.hasFile fs fn = true →
      Files.content (handle_future fs env stdin title).2 fn = Files.content fs fn) ∧
    (∀ (st : NotesState) (title : String),
      Files.hasFile st.notes title = true →
      (handle_exact_done st title).1 = .moved title ∧
        ExactOutcome.exitCode (handle_exact_done st title).1 = 0 ∧
        Files.content ((handle_exact_done st title).2.doneDir.getD []) title =
          some ((Files.content st.notes title).getD "")) := by
  refine ⟨?_, ?_, ?_, ?_, ?_⟩
  · intro fs stdin title s h hmem
    exact ⟨cron_collision_of_firstValid stdin fs title s h hmem, rfl⟩
  · intro fs stdin title fn hfn
    exact handle_cron_preserves stdin fs title fn hfn
  · intro fs d title h
    exact ⟨futureCreate_collision fs d title h, rfl⟩
  · intro fs env stdin title fn hfn
    exact handle_future_preserves fs env stdin title fn hfn
  · intro st title h
    refine ⟨by simp [handle_exact_done, h], by simp [handle_exact_done, h, ExactOutcome.exitCode], ?_⟩
    simp only [handle_exact_done, h, ite_true]
    exact content_put_self _ title _

/-- Claim C1: counterexample.  With `T` present in the notes directory and a file
also named `T` (content "old") already in the `done` subdirectory, the
exact-done relocation does not fail: it exits 0 and silently replaces the
destination file's content. -/
theorem C1_counterexample :
    handle_exact_done ⟨[("T", "")], some [("T", "old")]⟩ "T" =
      (.moved "T", ⟨[], some [("T", "")]⟩) ∧
    ExactOutcome.exitCode (.moved "T") = 0 ∧
    Files.content [("T", "old")] "T" = some "old" ∧
    Files.content [("T", "")] "T" = some "" := by
  refine ⟨by decide, rfl, by decide, by decide⟩

/-- Claim C1: witness. -/
theorem C1_witness :
    handle_cron [("0 4 * * * X", "")] ["0 4 * * *"] "X" =
      (.fileExists "0 4 * * * X", [("0 4 * * * X", "")]) ∧
    futureCreate [("2026-01-15 Y", "")] "2026-01-15" "Y" =
      (.fileExists "2026-01-15 Y", [("2026-01-15 Y", "")]) ∧
    (handle_exact_done ⟨[("T", "")], some [("T", "old")]⟩ "T").1 = .moved "T" := by
  refine ⟨(C1_thm.1 _ _ "X" "0 4 * * *" (by decide) (by decide)).1,
    (C1_thm.2.2.1 _ "2026-01-15" "Y" (by decide)).1,
    (C1_thm.2.2.2.2 ⟨[("T", "")], some [("T", "old")]⟩ "T" (by decide)).1⟩

/-- Claim C8: creating the recurring task `0 9 * * 1 Weekly report` in an empty
notes directory yields exactly one empty marker file and exit code 0;
repeating the identical creation fails with the already-exists error, exits 1
and leaves the directory with that single file. -/
theorem C8_thm :
    handle_cron [] ["0 9 * * 1"] "Weekly report" =
      (.created "0 9 * * 1 Weekly report", [("0 9 * * 1 Weekly report", "")]) ∧
    CronOutcome.exitCode (.created "0 9 * * 1 Weekly report") = 0 ∧
    handle_cron [("0 9 * * 1 Weekly report", "")] ["0 9 * * 1"] "Weekly report" =
      (.fileExists "0 9 * * 1 Weekly report", [("0 9 * * 1 Weekly report", "")]) ∧
    CronOutcome.exitCode (.fileExists "0 9 * * 1 Weekly report") = 1 := by
  refine ⟨by decide, rfl, by decide, rfl⟩

/-- Claim C10: exact-done moves the named file into the `done` subdirectory,
creating the subdirectory when absent, and exits 0; an absent file exits 1
and modifies nothing. -/
theorem C10_thm : ∀ (st : NotesState) (title : String),
    (Files.hasFile st.notes title = false →
      handle_exact_done st title = (.notFound, st) ∧
        ExactOutcome.exitCode .notFound = 1) ∧
    (Files.hasFile st.notes title = true →
      (handle_exact_done st title).1 = .moved title ∧
        ExactOutcome.exitCode (handle_exact_done st title).1 = 0 ∧
        ((handle_exact_done st title).2.doneDir).isSome = true ∧
        Files.hasFile ((handle_exact_done st title).2.doneDir.getD []) title = true ∧
        Files.hasFile ((handle_exact_done st title).2.notes) title = false) := by
  intro st title
  constructor
  · intro h
    refine ⟨?_, rfl⟩
    simp [handle_exact_done, h]
  · intro h
    refine ⟨by simp [handle_exact_done, h], by simp [handle_exact_done, h, ExactOutcome.exitCode],
      by simp [handle_exact_done, h], ?_, ?_⟩
    · simp only [handle_exact_done, h, ite_true]
      exact hasFile_put_self _ title _
    · simp only [handle_exact_done, h, ite_true]
      exact hasFile_remove_self _ title

/-- Claim C10: witness. -/
theorem C10_witness :
    handle_exact_done ⟨[], none⟩ "A" = (.notFound, ⟨[], none⟩) ∧
    (handle_exact_done ⟨[("A", "")], none⟩ "A").1 = .moved "A" ∧
    ((handle_exact_done ⟨[("A", "")], none⟩ "A").2.doneDir).isSome = true :=
  ⟨((C10_thm ⟨[], none⟩ "A").1 (by decide)).1,
    ((C10_thm ⟨[("A", "")], none⟩ "A").2 (by decide)).1,
    ((C10_thm ⟨[("A", "")], none⟩ "A").2 (by decide)).2.2.1⟩


/-- Claim C6: a picker that runs and exits nonzero is user cancellation —
exit 1, no file created, and no fallback to the text prompt (the outcome is
independent of the stdin lines); a picker that cannot be launched at all
falls back to the text date prompt. -/
theorem C6_thm : ∀ (fs : Files) (env : FutureEnv) (stdin : List String) (title : String),
    env.zenityOnPath = true → env.displaySet = true →
    (∀ (c : Nat) (out : String), env.picker = .exited c out → c ≠ 0 →
      handle_future fs env stdin title = (.cancelled, fs) ∧
        FutureOutcome.exitCode .cancelled = 1) ∧
    (env.picker = .launchFailure →
      handle_future fs env stdin title = futureCLILoop fs stdin title) := by
  intro fs env stdin title hz hd
  have hzd : (env.zenityOnPath && env.displaySet) = true := by rw [hz, hd]; rfl
  constructor
  · intro c out hp hc
    cases c with
    | zero => exact absurd rfl hc
    | succ m =>
      refine ⟨?_, rfl⟩
      simp [handle_future, hzd, hp]
  · intro hp
    simp [handle_future, hzd, hp]

/-- Claim C6: witness. -/
theorem C6_witness :
    handle_future [] ⟨true, true, .exited 1 ""⟩ ["2026-01-01"] "T" = (.cancelled, []) ∧
    handle_future [] ⟨true, true, .launchFailure⟩ ["x"] "T" = futureCLILoop [] ["x"] "T" :=
  ⟨((C6_thm [] ⟨true, true, .exited 1 ""⟩ ["2026-01-01"] "T" rfl rfl).1 1 "" rfl
      (by decide)).1,
    (C6_thm [] ⟨true, true, .launchFailure⟩ ["x"] "T" rfl rfl).2 rfl⟩

/-- Claim C9: a picker that exits 0 with empty or whitespace-only stdout
makes the future helper report that the date could not be determined:
exit 1, no file created, no fallback to the text prompt. -/
theorem C9_thm : ∀ (fs : Files) (stdin : List String) (title out : String),
    pyStrip out = "" →
    handle_future fs ⟨true, true, .exited 0 out⟩ stdin title = (.noDate, fs) ∧
      FutureOutcome.exitCode .noDate = 1 := by
  intro fs stdin title out h
  refine ⟨?_, rfl⟩
  simp [handle_future, h]

/-- Claim C9: witness. -/
theorem C9_witness :
    handle_future [] ⟨true, true, .exited 0 " "⟩ ["2026-01-01"] "T" = (.noDate, []) :=
  (C9_thm [] ["2026-01-01"] "T" " " (by decide)).1

/-- Claim C7: counterexample.  `strptime(.., "%Y-%m-%d")` is not "strict
YYYY-MM-DD": the non-padded `2026-1-5` is accepted (a file is created,
exit 0) although it is not in strict YYYY-MM-DD shape, while `2026-02-30`
has the strict shape but is rejected as an invalid calendar date (here the
prompt then hits end-of-input and aborts with no file). -/
theorem C7_counterexample :
    isStrictYMD "2026-1-5" = false ∧
    futureCLILoop [] ["2026-1-5"] "T" = (.created "2026-1-5 T", [("2026-1-5 T", "")]) ∧
    FutureOutcome.exitCode (.created "2026-1-5 T") = 0 ∧
    isStrictYMD "2026-02-30" = true ∧
    futureCLILoop [] ["2026-02-30"] "T" = (.aborted, []) := by
  refine ⟨by decide, by decide, rfl, by decide, by decide⟩

/-- Claim C7 (amended): in the text fallback an entered date is accepted if
and only if `strptime(.., "%Y-%m-%d")` parses it (four-digit year, one- or
two-digit month and day, calendar-valid); malformed input re-prompts with no
side effect; an accepted date yields the file `"<date> <title>"` and exit 0
when no file of that name exists, and the already-exists error with exit 1
otherwise. -/
theorem C7_thm : ∀ (fs : Files) (line : String) (rest : List String) (title : String),
    ((strptimeYMD line).isSome = false →
      futureCLILoop fs (line :: rest) title = futureCLILoop fs rest title) ∧
    ((strptimeYMD line).isSome = true →
      Files.hasFile fs (line ++ " " ++ title) = false →
      futureCLILoop fs (line :: rest) title =
        (.created (line ++ " " ++ title), Files.put fs (line ++ " " ++ title) "") ∧
        FutureOutcome.exitCode (.created (line ++ " " ++ title)) = 0) ∧
    ((strptimeYMD line).isSome = true →
      Files.hasFile fs (line ++ " " ++ title) = true →
      futureCLILoop fs (line :: rest) title = (.fileExists (line ++ " " ++ title), fs) ∧
        FutureOutcome.exitCode (.fileExists (line ++ " " ++ title)) = 1) := by
  intro fs line rest title
  refine ⟨?_, ?_, ?_⟩
  · intro h
    simp [futureCLILoop, h]
  · intro h hm
    exact ⟨by simp [futureCLILoop, h, futureCreate, hm], rfl⟩
  · intro h hm
    exact ⟨by simp [futureCLILoop, h, futureCreate, hm], rfl⟩

/-- Claim C7: witness (the specification's own scenario). -/
theorem C7_witness :
    futureCLILoop [] ["2026-01-15"] "New year resolutions" =
      (.created "2026-01-15 New year resolutions",
        [("2026-01-15 New year resolutions", "")]) :=
  ((C7_thm [] "2026-01-15" [] "New year resolutions").2.1 (by decide) (by decide)).1

/-- Claim C4: with zero or one parsed candidate the disambiguator issues the
original argument list unmodified as the single backend action, prints
nothing, consumes no stdin, and propagates the backend's exit code. -/
theorem C4_thm : ∀ (env : DoneEnv) (pattern : String) (remaining stdin : List String),
    (parseCandidates env.listStdout).length ≤ 1 →
    handle_interactive_done env pattern remaining stdin =
      ⟨[], [remaining], .ran remaining (env.runExit remaining)⟩ ∧
    DoneOutcome.exitCode (.ran remaining (env.runExit remaining)) = env.runExit remaining := by
  intro env pattern remaining stdin h
  refine ⟨?_, rfl⟩
  simp only [handle_interactive_done]
  rw [if_neg (by omega)]

/-- Claim C4: witness. -/
theorem C4_witness :
    handle_interactive_done ⟨"Error - No matches found", fun _ => 3, false⟩
      "x" ["-d", "x"] [] = ⟨[], [["-d", "x"]], .ran ["-d", "x"] 3⟩ :=
  (C4_thm ⟨"Error - No matches found", fun _ => 3, false⟩ "x" ["-d", "x"] [] (by decide)).1

/-- Claim C3: with N ≥ 2 parsed candidates and a valid selection k the
disambiguator prints the header plus an enumerated 1-based menu of exactly N
options, issues exactly one backend action whose argument list is the
original one with the first occurrence of the pattern replaced by the k-th
candidate, and propagates that invocation's exit code. -/
theorem C3_thm : ∀ (env : DoneEnv) (pattern sel : String) (remaining : List String)
    (k : Int) (cands : List String),
    env.quiet = false →
    parseCandidates env.listStdout = cands →
    2 ≤ cands.length →
    (pyLower sel == "q") = false →
    pyIntL sel.data = some k →
    1 ≤ k → k ≤ (cands.length : Int) →
    remaining.contains pattern = true →
    handle_interactive_done env pattern remaining [sel] =
      ⟨("Multiple tasks match \"" ++ pattern ++ "\". Mark which one as done?") ::
          (List.range cands.length).map
            (fun i => toString (i + 1) ++ ") " ++ cands.getD i ""),
        [replaceFirst remaining pattern (cands.getD (k.toNat - 1) "")],
        .ran (replaceFirst remaining pattern (cands.getD (k.toNat - 1) ""))
          (env.runExit (replaceFirst remaining pattern (cands.getD (k.toNat - 1) "")))⟩ ∧
    ((List.range cands.length).map
        (fun i => toString (i + 1) ++ ") " ++ cands.getD i "")).length = cands.length := by
  intro env pattern sel remaining k cands hq hc hN hsel hint hk1 hk2 hp
  refine ⟨?_, by simp⟩
  have hrange : 1 ≤ k ∧ k ≤ (cands.length : Int) := ⟨hk1, hk2⟩
  simp only [handle_interactive_done, hc]
  rw [if_pos (by omega)]
  simp only [selectionLoop, hsel, hint, hrange, hp, hq, pq, DoneOutcome.runsOf,
    Bool.false_eq_true, ite_false, if_true, and_self, ite_true, List.append_nil,
    List.singleton_append, List.cons_append, List.nil_append]

/-- Claim C3: witness. -/
theorem C3_witness :
    handle_interactive_done ⟨"- task A\n- task B", fun _ => 2, false⟩
      "task" ["-d", "task"] ["2"] =
      ⟨["Multiple tasks match \"task\". Mark which one as done?", "1) task A", "2) task B"],
        [["-d", "task B"]], .ran ["-d", "task B"] 2⟩ := by
  have h := (C3_thm ⟨"- task A\n- task B", fun _ => 2, false⟩ "task" "2" ["-d", "task"]
    2 ["task A", "task B"] rfl (by decide) (by decide) (by decide) (by decide)
    (by decide) (by decide) (by decide)).1
  exact h.trans (by decide)

/-- Claim C5 (amended): a missing configuration file, a syntactically invalid
one, and a JSON object without the `notes_dir` key are caught and exit 2 with
no directory created; a non-object document or a non-string `notes_dir` value
instead raises an uncaught `TypeError` (the interpreter aborts with exit
code 1, not 2) — still with no directory created. -/
theorem C5_thm : ∀ (home : String) (dirs : List String),
    (get_notes_dir ⟨.missing, home, dirs⟩ = (.exit2, [])) ∧
    (get_notes_dir ⟨.unparseable, home, dirs⟩ = (.exit2, [])) ∧
    (∀ (fields : List (String × Json)), lookupField fields "notes_dir" = none →
      get_notes_dir ⟨.parsed (.obj fields), home, dirs⟩ = (.exit2, [])) ∧
    (∀ (fields : List (String × Json)) (j : Json),
      lookupField fields "notes_dir" = some j → j.isStr = false →
      get_notes_dir ⟨.parsed (.obj fields), home, dirs⟩ = (.uncaught, []) ∧
        ResolveResult.exitCode .uncaught = some 1) ∧
    (∀ (doc : Json), doc.isObj = false →
      get_notes_dir ⟨.parsed doc, home, dirs⟩ = (.uncaught, [])) := by
  intro home dirs
  refine ⟨rfl, rfl, ?_, ?_, ?_⟩
  · intro fields h
    simp [get_notes_dir, h]
  · intro fields j h hj
    refine ⟨?_, rfl⟩
    cases j with
    | str s => simp [Json.isStr] at hj
    | num n => simp [get_notes_dir, h]
    | bool b => simp [get_notes_dir, h]
    | null => simp [get_notes_dir, h]
    | arr elems => simp [get_notes_dir, h]
    | obj fields2 => simp [get_notes_dir, h]
  · intro doc h
    cases doc with
    | obj fields => simp [Json.isObj] at h
    | str s => rfl
    | num n => rfl
    | bool b => rfl
    | null => rfl
    | arr elems => rfl

/-- Claim C5: counterexample.  A configuration whose `notes_dir` value is the
number 5 lacks a string-valued `notes_dir` key, yet the resolver does not
exit 2: `pathlib.Path(5)` raises an uncaught `TypeError` and the interpreter
aborts with exit code 1 (no directory is created). -/
theorem C5_counterexample :
    get_notes_dir ⟨.parsed (.obj [("notes_dir", .num 5)]), "/home/u", []⟩ =
      (.uncaught, []) ∧
    ResolveResult.exitCode .uncaught = some 1 ∧
    ResolveResult.uncaught ≠ ResolveResult.exit2 := by
  refine ⟨rfl, rfl, by decide⟩

/-- Claim C5: witness. -/
theorem C5_witness :
    get_notes_dir ⟨.missing, "/h", []⟩ = (.exit2, []) ∧
    get_notes_dir ⟨.parsed (.obj [("other", .null)]), "/h", []⟩ = (.exit2, []) ∧
    get_notes_dir ⟨.parsed (.arr []), "/h", []⟩ = (.uncaught, []) :=
  ⟨(C5_thm "/h" []).1,
    (C5_thm "/h" []).2.2.1 [("other", .null)] rfl,
    (C5_thm "/h" []).2.2.2.2 (.arr []) rfl⟩

/-- Claim C2 (amended): giving both verbose and quiet is rejected by the
argument parser itself with exit code 2 — before the backend is located,
before the configuration is read and before any backend call or filesystem
write; giving two or more of the recurring/future/exact flags (with the
backend locatable and no help flag) exits 1 with the usage error, likewise
before any backend call, configuration read or filesystem write. -/
theorem C2_thm : ∀ (pa : ParsedArgs) (env : MainEnv),
    (pa.verbose = true → pa.quiet = true →
      mainRun pa env = ⟨2, 0, false, false⟩) ∧
    (env.wrenFound = true → pa.help = false → (pa.verbose && pa.quiet) = false →
      1 < commandCount pa →
      mainRun pa env = ⟨1, 0, false, false⟩) := by
  intro pa env
  constructor
  · intro hv hq
    simp [mainRun, hv, hq]
  · intro hw hh hvq hc
    simp [mainRun, hvq, hw, hh, hc]

/-- Claim C2: counterexample.  Verbose together with quiet exits with the
parser's usage-error code 2, not 1. -/
theorem C2_counterexample :
    mainRun ⟨none, none, none, false, true, true, []⟩
      ⟨true, ⟨.missing, "/h", []⟩, [], none, ⟨false, false, .launchFailure⟩, [], "",
        fun _ => 0⟩ = ⟨2, 0, false, false⟩ ∧
    (2 : Int) ≠ 1 := ⟨rfl, by decide⟩

/-- Claim C2: witness. -/
theorem C2_witness :
    mainRun ⟨none, none, none, false, true, true, []⟩
      ⟨true, ⟨.missing, "/h", []⟩, [], none, ⟨false, false, .launchFailure⟩, [], "",
        fun _ => 0⟩ = ⟨2, 0, false, false⟩ ∧
    mainRun ⟨some "A", some "B", none, false, false, false, []⟩
      ⟨true, ⟨.missing, "/h", []⟩, [], none, ⟨false, false, .launchFailure⟩, [], "",
        fun _ => 0⟩ = ⟨1, 0, false, false⟩ :=
  ⟨(C2_thm ⟨none, none, none, false, true, true, []⟩ _).1 rfl rfl,
    (C2_thm ⟨some "A", some "B", none, false, false, false, []⟩ _).2 rfl rfl rfl
      (by decide)⟩

end WrenWrapper
